import Mathlib

/-!
Verification development for the Netzer backend (`src/app.py` and
`src/routes_valr_trade.py`): a shallow embedding of the deposit-intake
webhook, the VALR deposit matching scan, the read endpoints, and the
auto-trade operation, with theorems settling the specification claims.

Currency amounts are modelled as rationals; the Supabase tables are
modelled as lists of records in insertion order (webhook handlers append
rows, so a row earlier in the list is older).
-/

namespace Netzer

/-- The pydantic `Deposit` payload of the Stitch webhook (app.py, `class Deposit`). -/
structure Deposit where
  client_id : String
  amount_zar : ℚ
  stitch_txid : String
deriving Repr, DecidableEq

/-- A row of the Supabase `deposits` table, i.e. the `record` dict built by
`handle_stitch_webhook`: the payload fields plus a timestamp and a status. -/
structure DepositRecord where
  client_id : String
  amount_zar : ℚ
  stitch_txid : String
  timestamp : ℕ
  status : String
deriving Repr, DecidableEq

/-- The row `handle_stitch_webhook` builds for a payload `d` at time `now`:
all payload fields copied, `status` set to `"completed"`. -/
def mkDepositRecord (d : Deposit) (now : ℕ) : DepositRecord :=
  { client_id := d.client_id
    amount_zar := d.amount_zar
    stitch_txid := d.stitch_txid
    timestamp := now
    status := "completed" }

/-- The webhook handler `handle_stitch_webhook` (app.py): builds the record
and POSTs it to the `deposits` table, returning the inserted row. There is no
lookup of existing rows and no validation beyond pydantic type parsing: the
insert happens unconditionally. -/
def handle_stitch_webhook (table : List DepositRecord) (d : Deposit) (now : ℕ) :
    List DepositRecord × DepositRecord :=
  (table ++ [mkDepositRecord d now], mkDepositRecord d now)

/-- A VALR deposit-history entry as read in `get_valr_deposits`
(fields `id`, `currency`, `amount`, `createdAt`, `status`, `description`). -/
structure ValrDeposit where
  id : String
  currency : String
  amount : ℚ
  createdAt : String
  status : String
  description : String
deriving Repr, DecidableEq

/-- A row of the Supabase fetch
`deposits?select=client_id,amount_zar,stitch_txid,timestamp` in
`get_valr_deposits`: note the projection carries no status column. -/
structure StitchRow where
  client_id : String
  amount_zar : ℚ
  stitch_txid : String
  timestamp : ℕ
deriving Repr, DecidableEq

/-- Projection of a stored deposit row to the columns selected by the
matching scan's fetch. -/
def stitchRowOf (r : DepositRecord) : StitchRow :=
  { client_id := r.client_id
    amount_zar := r.amount_zar
    stitch_txid := r.stitch_txid
    timestamp := r.timestamp }

/-- The candidate test of the inner loop of `get_valr_deposits`:
`abs(float(s["amount_zar"]) - amount) <= 5`. -/
def matchesTol (dep_amount notif_amount : ℚ) : Bool :=
  decide (|dep_amount - notif_amount| ≤ 5)

/-- The inner loop of `get_valr_deposits`: walk `stitch_data` in list order
and break at the first row within tolerance of the notification amount. -/
def findMatch (stitch_data : List StitchRow) (amount : ℚ) : Option StitchRow :=
  stitch_data.find? (fun s => matchesTol s.amount_zar amount)

/-- A row of the `matched_records` list built by `get_valr_deposits`
(and upserted into the `valr_deposits` table). -/
structure MatchedRecord where
  valr_id : String
  currency : String
  amount : ℚ
  status : String
  created_at : String
  description : String
  client_id : Option String
  matched_stitch_txid : Option String
deriving Repr, DecidableEq

/-- One iteration of the outer loop of `get_valr_deposits`: build the
`matched_records` entry for a VALR entry `v`, with `client_id` and
`matched_stitch_txid` taken from the first tolerance match (or null). -/
def matchRecord (stitch_data : List StitchRow) (v : ValrDeposit) : MatchedRecord :=
  let m := findMatch stitch_data v.amount
  { valr_id := v.id
    currency := v.currency
    amount := v.amount
    status := v.status
    created_at := v.createdAt
    description := v.description
    client_id := m.map (fun s => s.client_id)
    matched_stitch_txid := m.map (fun s => s.stitch_txid) }

/-- A row of the Supabase `executions` table, i.e. the `record` dict built by
`auto_trade` in routes_valr_trade.py. -/
structure ExecutionRecord where
  client_id : String
  side : String
  pair : String
  zar_amount : Option ℚ
  usdt_amount : Option ℚ
  exchange_order_id : String
  status : String
  created_at : ℕ
deriving Repr, DecidableEq

/-- The persisted Supabase state touched by the embedded endpoints. -/
structure Store where
  deposits : List DepositRecord
  valr_deposits : List MatchedRecord
  executions : List ExecutionRecord
deriving Repr, DecidableEq

/-- Endpoint GET /deposits (`list_deposits` in app.py): returns the
`deposits` table as fetched by `deposits?select=*` (no `order` parameter, so
rows come back in stored order); issues no write. -/
def list_deposits (st : Store) : Store × List DepositRecord :=
  (st, st.deposits)

/-- Endpoint GET /valr/deposits (`get_valr_deposits` in app.py): fetch the
VALR history `valr_data`, fetch the stitch rows, build `matched_records`,
upsert them into the `valr_deposits` table, and return them. -/
def get_valr_deposits (st : Store) (valr_data : List ValrDeposit) :
    Store × List MatchedRecord :=
  let stitch_data := st.deposits.map stitchRowOf
  let matched_records := valr_data.map (matchRecord stitch_data)
  ({ st with valr_deposits := st.valr_deposits ++ matched_records }, matched_records)

/-- One entry of the VALR `/v1/account/balances` response, as read by
`avail` in `auto_trade`. -/
structure Balance where
  currency : String
  available : ℚ
deriving Repr, DecidableEq

/-- The `avail` closure of `auto_trade`: first balance entry for the symbol,
else 0. -/
def avail (balances : List Balance) (symbol : String) : ℚ :=
  match balances.find? (fun b => b.currency == symbol) with
  | some b => b.available
  | none => 0

/-- A market-order payload as built by `auto_trade`
(`{"pair": ..., "side": ..., quoteAmount | baseAmount, "timeInForce": "IOC"}`). -/
structure OrderPayload where
  pair : String
  side : String
  quoteAmount : Option ℚ
  baseAmount : Option ℚ
  timeInForce : String
deriving Repr, DecidableEq

/-- The observable outcome of one `auto_trade` invocation: the action taken,
the market orders placed at VALR, and the rows inserted into `executions`. -/
structure AutoTradeResult where
  action : String
  orders : List OrderPayload
  inserted : List ExecutionRecord
  zar : ℚ
  usdt : ℚ
deriving Repr, DecidableEq

/-- Endpoint POST /valr/auto-trade (`auto_trade` in routes_valr_trade.py):
reads ZAR and USDT available balances; if ZAR ≥ 10 places a BUY spending the
whole ZAR balance, else if USDT ≥ 1 places a SELL of the whole USDT balance,
else returns a NOOP carrying both balances; a placed order is recorded as one
`executions` row. `orderId` stands for the id extracted from the exchange
response and `now` for `datetime.utcnow()`. -/
def auto_trade (balances : List Balance) (orderId : String) (now : ℕ) :
    AutoTradeResult :=
  let zar := avail balances "ZAR"
  let usdt := avail balances "USDT"
  if zar ≥ 10 then
    let payload : OrderPayload :=
      { pair := "USDTZAR", side := "BUY", quoteAmount := some zar,
        baseAmount := none, timeInForce := "IOC" }
    let record : ExecutionRecord :=
      { client_id := "auto", side := "BUY", pair := "USDTZAR",
        zar_amount := some zar, usdt_amount := none,
        exchange_order_id := orderId, status := "SUBMITTED", created_at := now }
    { action := "BUY", orders := [payload], inserted := [record],
      zar := zar, usdt := usdt }
  else if usdt ≥ 1 then
    let payload : OrderPayload :=
      { pair := "USDTZAR", side := "SELL", quoteAmount := none,
        baseAmount := some usdt, timeInForce := "IOC" }
    let record : ExecutionRecord :=
      { client_id := "auto", side := "SELL", pair := "USDTZAR",
        zar_amount := none, usdt_amount := some usdt,
        exchange_order_id := orderId, status := "SUBMITTED", created_at := now }
    { action := "SELL", orders := [payload], inserted := [record],
      zar := zar, usdt := usdt }
  else
    { action := "NOOP", orders := [], inserted := [], zar := zar, usdt := usdt }

/-- The descending `created_at` comparison used by the
`order=created_at.desc` parameter of the recent-executions query. -/
def execDesc (a b : ExecutionRecord) : Bool :=
  decide (b.created_at ≤ a.created_at)

/-- Endpoint GET /executions/recent (`recent` in routes_valr_trade.py):
returns the `executions` table ordered `created_at.desc` and truncated to
`limit`; issues no write. -/
def recent (st : Store) (limit : ℕ) : Store × List ExecutionRecord :=
  (st, (st.executions.mergeSort execDesc).take limit)

/-- Number of rows of a deposits table carrying a given external
transaction id (an observation used to state the dedup claims). -/
def countTxid (table : List DepositRecord) (txid : String) : ℕ :=
  (table.filter (fun r => r.stitch_txid == txid)).length

/-- Sample stored deposit row: client "c1", amount 100.00, txid "tx-1". -/
def r100 : DepositRecord :=
  { client_id := "c1", amount_zar := 100, stitch_txid := "tx-1",
    timestamp := 0, status := "completed" }

/-- Sample later stored deposit row: client "c2", amount 200.00, txid "tx-2". -/
def r200 : DepositRecord :=
  { client_id := "c2", amount_zar := 200, stitch_txid := "tx-2",
    timestamp := 1, status := "completed" }

/-- Sample store holding only the deposit row `r100`. -/
def st100 : Store :=
  { deposits := [r100], valr_deposits := [], executions := [] }

/-- Sample store holding the deposit rows `r100` (older) and `r200` (newer). -/
def stAB : Store :=
  { deposits := [r100, r200], valr_deposits := [], executions := [] }

/-- A sample ZAR fiat-credit entry of the VALR deposit history. -/
def credit (i : String) (a : ℚ) : ValrDeposit :=
  { id := i, currency := "ZAR", amount := a, createdAt := "2024-01-01",
    status := "COMPLETE", description := "" }

/-- The candidate test holds exactly when the two amounts differ by at
most 5 in absolute value. -/
theorem matchesTol_eq_true (d n : ℚ) : matchesTol d n = true ↔ |d - n| ≤ 5 := by
  simp [matchesTol]

/-- An amount always passes the candidate test against itself. -/
theorem matchesTol_self (a : ℚ) : matchesTol a a = true := by
  simp [matchesTol]

/-- C1 counterexample: submitting the same deposit payload (client "c1",
amount 100, txid "tx-1") twice leaves two rows in the deposits table, not
one, refuting the claimed idempotence of deposit intake. -/
theorem stitch_webhook_duplicate_two_rows :
    ((handle_stitch_webhook
        ((handle_stitch_webhook [] ⟨"c1", 100, "tx-1"⟩ 0).1)
        ⟨"c1", 100, "tx-1"⟩ 1).1).length = 2 := rfl

/-- C1 (corrected): deposit intake is not idempotent on the external
transaction id: each call unconditionally appends a fresh row, so submitting
the same notification twice adds two rows with that txid, and the second
call returns a newly built record rather than the first one. -/
theorem stitch_webhook_always_appends (table : List DepositRecord)
    (d : Deposit) (n₁ n₂ : ℕ) :
    countTxid ((handle_stitch_webhook
        ((handle_stitch_webhook table d n₁).1) d n₂).1) d.stitch_txid
      = countTxid table d.stitch_txid + 2 ∧
    (handle_stitch_webhook ((handle_stitch_webhook table d n₁).1) d n₂).2
      = mkDepositRecord d n₂ := by
  refine ⟨?_, rfl⟩
  simp [handle_stitch_webhook, countTxid, List.filter_append, mkDepositRecord]

/-- C6 counterexample: the row created for a valid notification (client
"c1", amount 100, txid "tx-1") has status "completed", not "received", and
the code writes no audit event at all. -/
theorem stitch_webhook_status_not_received :
    (handle_stitch_webhook [] ⟨"c1", 100, "tx-1"⟩ 0).2.status = "completed" ∧
    ¬ (handle_stitch_webhook [] ⟨"c1", 100, "tx-1"⟩ 0).2.status = "received" :=
  ⟨rfl, by decide⟩

/-- C6 (corrected): for every deposit-received notification with a positive
amount, deposit intake appends exactly the one new row, copying the client
id, amount and txid, but sets its status to "completed" (and the code
maintains no audit-event collection, so no `deposit.received` event is
emitted). -/
theorem stitch_webhook_creates_completed_row (table : List DepositRecord)
    (d : Deposit) (now : ℕ) (hpos : 0 < d.amount_zar) :
    (handle_stitch_webhook table d now).1
        = table ++ [(handle_stitch_webhook table d now).2] ∧
    (handle_stitch_webhook table d now).2.client_id = d.client_id ∧
    (handle_stitch_webhook table d now).2.amount_zar = d.amount_zar ∧
    (handle_stitch_webhook table d now).2.stitch_txid = d.stitch_txid ∧
    (handle_stitch_webhook table d now).2.status = "completed" :=
  ⟨rfl, rfl, rfl, rfl, rfl⟩

/-- C6 witness: the corrected intake contract applied to the concrete
notification (client "c1", amount 100, txid "tx-1") at time 0. -/
theorem stitch_webhook_creates_completed_row_witness :
    (0 : ℚ) < 100 ∧
    (handle_stitch_webhook [] ⟨"c1", 100, "tx-1"⟩ 0).2.status = "completed" :=
  ⟨by decide, (stitch_webhook_creates_completed_row [] ⟨"c1", 100, "tx-1"⟩ 0
      (by decide)).2.2.2.2⟩

/-- C7 counterexample: a notification with empty client id, amount −1 and
empty txid is accepted and inserted as a row (status "completed") instead of
being rejected with a ValidationError and no state change. -/
theorem stitch_webhook_accepts_invalid :
    handle_stitch_webhook [] ⟨"", -1, ""⟩ 7
      = ([{ client_id := "", amount_zar := -1, stitch_txid := "",
            timestamp := 7, status := "completed" }],
         { client_id := "", amount_zar := -1, stitch_txid := "",
           timestamp := 7, status := "completed" }) := rfl

/-- C7 (corrected): deposit intake performs no amount or identifier
validation: a notification with a non-positive amount or an empty client id
or an empty txid is processed like any other, appending a new row that
records exactly those fields. -/
theorem stitch_webhook_no_validation (table : List DepositRecord)
    (c : String) (a : ℚ) (x : String) (now : ℕ)
    (hbad : a ≤ 0 ∨ c = "" ∨ x = "") :
    (handle_stitch_webhook table ⟨c, a, x⟩ now).1
        = table ++ [mkDepositRecord ⟨c, a, x⟩ now] ∧
    (mkDepositRecord ⟨c, a, x⟩ now).amount_zar = a ∧
    (mkDepositRecord ⟨c, a, x⟩ now).client_id = c ∧
    (mkDepositRecord ⟨c, a, x⟩ now).stitch_txid = x :=
  ⟨rfl, rfl, rfl, rfl⟩

/-- C7 witness: the no-validation behavior applied to the concrete invalid
notification (empty client id, amount −1, empty txid) at time 7. -/
theorem stitch_webhook_no_validation_witness :
    ((-1 : ℚ) ≤ 0 ∨ "" = "" ∨ "" = "") ∧
    (handle_stitch_webhook [] ⟨"", -1, ""⟩ 7).1
      = [mkDepositRecord ⟨"", -1, ""⟩ 7] :=
  ⟨Or.inl (by decide),
   (stitch_webhook_no_validation [] "" (-1) "" 7 (Or.inl (by decide))).1⟩

/-- C2 (confirmed): the matching scan's candidate predicate is exactly the
absolute-tolerance test — the per-notification record carries a match
precisely when some fetched deposit row is within 5 of the notification
amount (the fetch carries no status column, so the test applies uniformly to
the stored rows, in particular to any in received state) — and at the
boundary a deposit of 100.00 matches a credit of 95.00 but not of 94.99. -/
theorem match_candidate_predicate :
    (∀ (rows : List StitchRow) (v : ValrDeposit),
        ((matchRecord rows v).matched_stitch_txid).isSome = true ↔
          ∃ s ∈ rows, |s.amount_zar - v.amount| ≤ 5) ∧
    (get_valr_deposits st100 [credit "V1" 95]).2.map
        (fun r => r.matched_stitch_txid) = [some "tx-1"] ∧
    (get_valr_deposits st100 [credit "V2" (9499/100)]).2.map
        (fun r => r.matched_stitch_txid) = [none] := by
  refine ⟨?_, ?_, ?_⟩
  · intro rows v
    simp [matchRecord, findMatch, List.find?_isSome, matchesTol]
  · simp [get_valr_deposits, matchRecord, findMatch, st100, r100, credit,
      stitchRowOf, matchesTol]
    norm_num
  · simp [get_valr_deposits, matchRecord, findMatch, st100, r100, credit,
      stitchRowOf, matchesTol]
    norm_num [abs_le]
    rw [abs_of_pos (by norm_num : (0:ℚ) < 501/100)]
    norm_num

/-- C3 (confirmed): the matching scan walks the fetched deposit rows in
stored (insertion, hence oldest-first) order and keeps the first hit: with
two stored deposits of equal amount A, the older one first, and one credit
notification of amount A, the older deposit is the one matched. -/
theorem match_prefers_older_equal_amount (r₁ r₂ : DepositRecord)
    (vd : List MatchedRecord) (ex : List ExecutionRecord)
    (v : ValrDeposit) (A : ℚ)
    (h₁ : r₁.amount_zar = A) (h₂ : r₂.amount_zar = A) (hv : v.amount = A)
    (hord : r₁.timestamp ≤ r₂.timestamp) :
    (get_valr_deposits ⟨[r₁, r₂], vd, ex⟩ [v]).2.map
        (fun r => (r.client_id, r.matched_stitch_txid))
      = [(some r₁.client_id, some r₁.stitch_txid)] := by
  simp [get_valr_deposits, matchRecord, findMatch, stitchRowOf, h₁, hv,
    matchesTol_self]

/-- C3 witness: the oldest-first tie-break applied to two concrete stored
deposits of amount 100 (txids "tx-1" older, "tx-2" newer) and a credit of
amount 100: the older row "tx-1" is matched. -/
theorem match_prefers_older_equal_amount_witness :
    (r100.amount_zar = 100 ∧ r100.timestamp ≤ 1) ∧
    (get_valr_deposits
        ⟨[r100, { client_id := "c2", amount_zar := 100, stitch_txid := "tx-2",
                  timestamp := 1, status := "completed" }], [], []⟩
        [credit "V1" 100]).2.map
        (fun r => (r.client_id, r.matched_stitch_txid))
      = [(some "c1", some "tx-1")] :=
  ⟨⟨rfl, by decide⟩,
   match_prefers_older_equal_amount r100
     { client_id := "c2", amount_zar := 100, stitch_txid := "tx-2",
       timestamp := 1, status := "completed" } [] []
     (credit "V1" 100) 100 rfl rfl rfl (by decide)⟩

/-- C4 counterexample: with one stored deposit (amount 100, status
"completed") and a matching credit of 100 the scan does find the match, yet
the deposits table after the call is unchanged — the matched deposit still
has status "completed", not "funds_confirmed", and no audit event of any
kind exists in the code. -/
theorem match_found_no_transition :
    (get_valr_deposits st100 [credit "V1" 100]).2.map
        (fun r => r.matched_stitch_txid) = [some "tx-1"] ∧
    (get_valr_deposits st100 [credit "V1" 100]).1.deposits = [r100] ∧
    r100.status = "completed" ∧
    ¬ r100.status = "funds_confirmed" := by
  refine ⟨?_, rfl, rfl, by decide⟩
  simp [get_valr_deposits, matchRecord, findMatch, st100, r100, credit,
    stitchRowOf, matchesTol_self]

/-- C4 (corrected): for each credit notification the engine only records a
row in the valr_deposits collection — carrying the matched deposit's client
id and txid when a candidate matches, and null client id and txid when none
does — while the deposits (and executions) collections are left unchanged in
both cases: no status transition to funds_confirmed and no audit event is
ever written. -/
theorem match_outcome_records_row (st : Store) (v : ValrDeposit) :
    (get_valr_deposits st [v]).1.deposits = st.deposits ∧
    (get_valr_deposits st [v]).1.executions = st.executions ∧
    (get_valr_deposits st [v]).1.valr_deposits
        = st.valr_deposits ++ (get_valr_deposits st [v]).2 ∧
    (∀ s, findMatch (st.deposits.map stitchRowOf) v.amount = some s →
      (get_valr_deposits st [v]).2 =
        [{ valr_id := v.id, currency := v.currency, amount := v.amount,
           status := v.status, created_at := v.createdAt,
           description := v.description, client_id := some s.client_id,
           matched_stitch_txid := some s.stitch_txid }]) ∧
    (findMatch (st.deposits.map stitchRowOf) v.amount = none →
      (get_valr_deposits st [v]).2 =
        [{ valr_id := v.id, currency := v.currency, amount := v.amount,
           status := v.status, created_at := v.createdAt,
           description := v.description, client_id := none,
           matched_stitch_txid := none }]) := by
  refine ⟨rfl, rfl, rfl, ?_, ?_⟩
  · intro s hs
    simp [get_valr_deposits, matchRecord, hs]
  · intro hn
    simp [get_valr_deposits, matchRecord, hn]

/-- C4 witness: the corrected matching contract applied twice concretely —
a credit of 100 against the stored deposit of 100 records the matched row,
and a credit of 200 against the same store records the unmatched (null)
row. -/
theorem match_outcome_records_row_witness :
    (findMatch (st100.deposits.map stitchRowOf) (credit "V1" 100).amount
        = some (stitchRowOf r100) ∧
     (get_valr_deposits st100 [credit "V1" 100]).2 =
       [{ valr_id := "V1", currency := "ZAR", amount := 100,
          status := "COMPLETE", created_at := "2024-01-01", description := "",
          client_id := some "c1", matched_stitch_txid := some "tx-1" }]) ∧
    (findMatch (st100.deposits.map stitchRowOf) (credit "V2" 200).amount
        = none ∧
     (get_valr_deposits st100 [credit "V2" 200]).2 =
       [{ valr_id := "V2", currency := "ZAR", amount := 200,
          status := "COMPLETE", created_at := "2024-01-01", description := "",
          client_id := none, matched_stitch_txid := none }]) := by
  have hA : findMatch (st100.deposits.map stitchRowOf)
      (credit "V1" 100).amount = some (stitchRowOf r100) := by
    simp [findMatch, st100, r100, credit, stitchRowOf, matchesTol_self]
  have hB : findMatch (st100.deposits.map stitchRowOf)
      (credit "V2" 200).amount = none := by
    simp [findMatch, st100, r100, credit, stitchRowOf, matchesTol]
    norm_num [abs_le]
  exact ⟨⟨hA, (match_outcome_records_row st100
          (credit "V1" 100)).2.2.2.1 (stitchRowOf r100) hA⟩,
         ⟨hB, (match_outcome_records_row st100
          (credit "V2" 200)).2.2.2.2 hB⟩⟩

/-- C5 counterexample: with one stored deposit (amount 100, txid "tx-1")
and two credit notifications of amount 100 in a single scan, both resulting
records claim the same deposit "tx-1", refuting the claim that each Deposit
is selected by at most one notification. -/
theorem deposit_claimed_twice :
    (get_valr_deposits st100 [credit "V1" 100, credit "V2" 100]).2.map
        (fun r => r.matched_stitch_txid) = [some "tx-1", some "tx-1"] := by
  simp [get_valr_deposits, matchRecord, findMatch, st100, r100, credit,
    stitchRowOf, matchesTol_self]

/-- C5 (corrected): the scan matches every notification against the same
snapshot of deposit rows and never marks a claimed deposit: two
notifications of equal amount in one scan both carry the same matched
deposit (the first row within tolerance), so a deposit can be claimed by
arbitrarily many notifications. -/
theorem claimed_deposit_remains_candidate (st : Store) (v₁ v₂ : ValrDeposit)
    (h : v₁.amount = v₂.amount) :
    (get_valr_deposits st [v₁, v₂]).2.map (fun r => r.matched_stitch_txid)
      = [(findMatch (st.deposits.map stitchRowOf) v₁.amount).map
           (fun s => s.stitch_txid),
         (findMatch (st.deposits.map stitchRowOf) v₁.amount).map
           (fun s => s.stitch_txid)] := by
  simp [get_valr_deposits, matchRecord, h]

/-- C5 witness: the shared-snapshot behavior applied to the concrete store
with deposit "tx-1" of amount 100 and two credits of amount 100. -/
theorem claimed_deposit_remains_candidate_witness :
    (credit "V1" 100).amount = (credit "V2" 100).amount ∧
    (get_valr_deposits st100 [credit "V1" 100, credit "V2" 100]).2.map
        (fun r => r.matched_stitch_txid)
      = [(findMatch (st100.deposits.map stitchRowOf)
            (credit "V1" 100).amount).map (fun s => s.stitch_txid),
         (findMatch (st100.deposits.map stitchRowOf)
            (credit "V1" 100).amount).map (fun s => s.stitch_txid)] :=
  ⟨rfl, claimed_deposit_remains_candidate st100
      (credit "V1" 100) (credit "V2" 100) rfl⟩

/-- The descending comparison of the recent-executions query is
transitive. -/
theorem execDesc_trans (a b c : ExecutionRecord)
    (hab : execDesc a b = true) (hbc : execDesc b c = true) :
    execDesc a c = true := by
  simp only [execDesc, decide_eq_true_eq] at *
  exact le_trans hbc hab

/-- The descending comparison of the recent-executions query is total. -/
theorem execDesc_total (a b : ExecutionRecord) :
    (execDesc a b || execDesc b a) = true := by
  simp only [execDesc, Bool.or_eq_true, decide_eq_true_eq]
  exact (Nat.le_total b.created_at a.created_at)

/-- C8 counterexample: with two stored deposits (timestamps 0 then 1) the
GET /deposits read returns them oldest-first, not most-recent-first, and the
GET /valr/deposits "read" mutates persisted state: the valr_deposits
collection differs before and after the call. -/
theorem read_endpoints_cex :
    ¬ List.Sorted (fun a b => b.timestamp ≤ a.timestamp)
        (list_deposits stAB).2 ∧
    (get_valr_deposits stAB [credit "V1" 100]).1.valr_deposits
      ≠ stAB.valr_deposits := by
  constructor
  · intro h
    simp only [list_deposits, stAB] at h
    have h2 : r200.timestamp ≤ r100.timestamp :=
      List.rel_of_sorted_cons h r200 (by simp)
    simp [r100, r200] at h2
  · simp [get_valr_deposits, stAB]

/-- C8 (corrected): the deposits and recent-executions reads mutate no
persisted state, and recent executions is returned most-recent-first
(created_at descending, truncated to the limit); the deposits list however
comes back in stored (oldest-first) order, and the VALR deposits endpoint is
not a pure read: it leaves deposits and executions unchanged but appends the
matched records to the valr_deposits collection. -/
theorem read_endpoints_behavior (st : Store) (lim : ℕ)
    (valr_data : List ValrDeposit) :
    list_deposits st = (st, st.deposits) ∧
    (recent st lim).1 = st ∧
    List.Sorted (fun a b : ExecutionRecord => b.created_at ≤ a.created_at)
        (recent st lim).2 ∧
    (get_valr_deposits st valr_data).1.deposits = st.deposits ∧
    (get_valr_deposits st valr_data).1.executions = st.executions ∧
    (get_valr_deposits st valr_data).1.valr_deposits
      = st.valr_deposits ++ (get_valr_deposits st valr_data).2 := by
  refine ⟨rfl, rfl, ?_, rfl, rfl, rfl⟩
  have h1 := @List.sorted_mergeSort ExecutionRecord execDesc
    (fun a b c => execDesc_trans a b c) (fun a b => execDesc_total a b)
    st.executions
  have h2 := List.Pairwise.sublist
    (List.take_sublist lim (st.executions.mergeSort execDesc)) h1
  exact h2.imp (fun hab => by simpa [execDesc] using hab)

/-- C9 (confirmed): when the available ZAR balance is below 10 and the
available USDT balance is below 1, auto-trade places no order and inserts no
execution row, returning the NOOP result that carries the two observed
balances. -/
theorem auto_trade_noop_below_minimums (balances : List Balance)
    (oid : String) (now : ℕ)
    (hz : avail balances "ZAR" < 10) (hu : avail balances "USDT" < 1) :
    auto_trade balances oid now
      = { action := "NOOP", orders := [], inserted := [],
          zar := avail balances "ZAR", usdt := avail balances "USDT" } := by
  simp [auto_trade, not_le.mpr hz, not_le.mpr hu]

/-- C9 witness: the NOOP behavior applied to the concrete balances
ZAR = 5 and USDT = 0. -/
theorem auto_trade_noop_below_minimums_witness :
    avail [⟨"ZAR", 5⟩, ⟨"USDT", 0⟩] "ZAR" < 10 ∧
    avail [⟨"ZAR", 5⟩, ⟨"USDT", 0⟩] "USDT" < 1 ∧
    auto_trade [⟨"ZAR", 5⟩, ⟨"USDT", 0⟩] "VALR-1" 3
      = { action := "NOOP", orders := [], inserted := [],
          zar := 5, usdt := 0 } :=
  ⟨by decide, by decide,
   auto_trade_noop_below_minimums [⟨"ZAR", 5⟩, ⟨"USDT", 0⟩] "VALR-1" 3
     (by decide) (by decide)⟩

/-- C10 (confirmed): auto-trade places at most one order per invocation,
with BUY priority: a ZAR balance of at least 10 always yields one BUY
spending the whole ZAR balance (whatever USDT holds), a SELL of the whole
USDT balance is placed when ZAR is below 10 and USDT is at least 1, and a
SELL only ever happens under exactly those conditions. -/
theorem auto_trade_buy_priority (balances : List Balance)
    (oid : String) (now : ℕ) :
    (auto_trade balances oid now).orders.length ≤ 1 ∧
    (10 ≤ avail balances "ZAR" →
      (auto_trade balances oid now).action = "BUY" ∧
      (auto_trade balances oid now).orders
        = [{ pair := "USDTZAR", side := "BUY",
             quoteAmount := some (avail balances "ZAR"),
             baseAmount := none, timeInForce := "IOC" }]) ∧
    (avail balances "ZAR" < 10 → 1 ≤ avail balances "USDT" →
      (auto_trade balances oid now).action = "SELL" ∧
      (auto_trade balances oid now).orders
        = [{ pair := "USDTZAR", side := "SELL", quoteAmount := none,
             baseAmount := some (avail balances "USDT"),
             timeInForce := "IOC" }]) ∧
    ((auto_trade balances oid now).action = "SELL" →
      avail balances "ZAR" < 10 ∧ 1 ≤ avail balances "USDT") := by
  refine ⟨?_, ?_, ?_, ?_⟩
  · by_cases hz : 10 ≤ avail balances "ZAR"
    · simp [auto_trade, hz]
    · by_cases hu : 1 ≤ avail balances "USDT"
      · simp [auto_trade, hz, hu]
      · simp [auto_trade, hz, hu]
  · intro hz
    simp [auto_trade, hz]
  · intro hz hu
    simp [auto_trade, not_le.mpr hz, hu]
  · intro hs
    by_cases hz : 10 ≤ avail balances "ZAR"
    · have hb : (auto_trade balances oid now).action = "BUY" := by
        simp [auto_trade, hz]
      rw [hs] at hb
      exact absurd hb (by decide)
    · by_cases hu : 1 ≤ avail balances "USDT"
      · exact ⟨not_le.mp hz, hu⟩
      · have hn : (auto_trade balances oid now).action = "NOOP" := by
          simp [auto_trade, hz, hu]
        rw [hs] at hn
        exact absurd hn (by decide)

/-- C10 witness: the BUY priority and SELL condition applied concretely —
balances ZAR = 50, USDT = 7 yield the single BUY spending 50 even though
USDT exceeds its minimum, and balances ZAR = 5, USDT = 7 yield the single
SELL of 7. -/
theorem auto_trade_buy_priority_witness :
    (10 ≤ avail [⟨"ZAR", 50⟩, ⟨"USDT", 7⟩] "ZAR" ∧
     (auto_trade [⟨"ZAR", 50⟩, ⟨"USDT", 7⟩] "o1" 0).orders
       = [{ pair := "USDTZAR", side := "BUY", quoteAmount := some 50,
            baseAmount := none, timeInForce := "IOC" }]) ∧
    (avail [⟨"ZAR", 5⟩, ⟨"USDT", 7⟩] "ZAR" < 10 ∧
     1 ≤ avail [⟨"ZAR", 5⟩, ⟨"USDT", 7⟩] "USDT" ∧
     (auto_trade [⟨"ZAR", 5⟩, ⟨"USDT", 7⟩] "o2" 0).orders
       = [{ pair := "USDTZAR", side := "SELL", quoteAmount := none,
            baseAmount := some 7, timeInForce := "IOC" }]) :=
  ⟨⟨by decide,
    ((auto_trade_buy_priority [⟨"ZAR", 50⟩, ⟨"USDT", 7⟩] "o1" 0).2.1
      (by decide)).2⟩,
   ⟨by decide, by decide,
    ((auto_trade_buy_priority [⟨"ZAR", 5⟩, ⟨"USDT", 7⟩] "o2" 0).2.2.1
      (by decide) (by decide)).2⟩⟩

end Netzer
